import Mathlib

/-!
Shallow embedding of `src/controllers/authController.ts` (authentication
endpoints of the amb-backend job-board application) and proofs of the
specification claims about it.

The database (three Sequelize partitions JobSeeker, Employer, Admin) is
modelled as three lists of `Account` rows; each handler is a pure function
from the database and the request (plus the nondeterministic inputs the real
handler draws from the environment: fresh salts, fresh random bytes, the
current time, mailer outcomes) to an HTTP-level result and the new database.
-/

namespace Auth

/-- A password value: either cleartext or a bcrypt hash of a password under a
salt. The handlers only ever store `hashed` values; the constructor split lets
us state that the stored value is never the cleartext. -/
inductive PValue where
  | clear (s : String)
  | hashed (salt : Nat) (pw : String)
deriving DecidableEq, Repr

namespace bcrypt

/-- `bcrypt.hash(pw, salt)`: the salted hash of `pw`. -/
def hash (pw : String) (salt : Nat) : PValue := .hashed salt pw

/-- `bcrypt.compare(candidate, stored)`: verification succeeds exactly when
`stored` is a hash of `candidate` (under any salt). -/
def compare (candidate : String) (stored : PValue) : Bool :=
  match stored with
  | .hashed _ pw => candidate == pw
  | .clear _ => false

end bcrypt

/-- One account row. All three partitions share this shape: JobSeeker and
Employer rows use `deleted`; Admin rows carry the finer-grained `role` label;
variant-specific profile fields are carried opaquely in `extra`.
Times are milliseconds since the epoch. -/
structure Account where
  id : Nat
  email : String
  password : PValue
  deleted : Bool
  reset_token : Option String
  token_expiry : Option Nat
  role : Option String
  modified : Option Nat
  extra : List (String × String)
deriving DecidableEq, Repr

/-- The credential store: the three independent partitions. -/
structure DB where
  jobSeekers : List Account
  employers : List Account
  admins : List Account
deriving DecidableEq, Repr

/-- `Model.findOne(\x7b where: \x7b email \x7d \x7d)`. -/
def findByEmail (accounts : List Account) (email : String) : Option Account :=
  accounts.find? (fun a => a.email == email)

/-- `Model.findByPk(id)`. -/
def findByPk (accounts : List Account) (id : Nat) : Option Account :=
  accounts.find? (fun a => a.id == id)

/-- `user.save()`: persist the mutated instance back into its partition,
replacing the row with the same primary key. -/
def updateById (accounts : List Account) (id : Nat) (a : Account) : List Account :=
  accounts.map (fun b => if b.id = id then a else b)

/-- The serialized profile of an account row as sent to the client. -/
structure Profile where
  id : Nat
  email : String
  password : Option PValue
  role : Option String
  extra : List (String × String)
deriving DecidableEq, Repr

/-- Modelled from the spec: `toJSON()` on the Sequelize model instances. The
model definitions live in `src/models`, which is not part of this fragment;
the spec states that returned profiles exclude the password ("returns the
created profile (password excluded)"; "`password` (salted hash, never stored
or transmitted in clear)"), so serialization drops the password field. -/
def Account.toJSON (a : Account) : Profile :=
  ⟨a.id, a.email, none, a.role, a.extra⟩

/-- `findByPk` with `attributes: \x7b exclude: ['password'] \x7d`: the row is
fetched without its password attribute, so the serialized profile carries
none. -/
def findByPkExclPassword (accounts : List Account) (id : Nat) : Option Profile :=
  (findByPk accounts id).map (fun a => { a.toJSON with password := none })

/-- The shared error types of `src/utils/errorTypes`. -/
inductive AppError where
  | Unauthorized (msg : String)
  | BadRequest (msg : String)
  | NotFound (msg : String)
  | Forbidden (msg : String)
deriving DecidableEq, Repr

/-- The outcome of one handler invocation, as seen at the HTTP boundary:
a successful JSON response with a status code, an ad-hoc error JSON written
directly by the handler, a thrown shared error funneled to `next(error)`, or
some other exception (e.g. a mailer rejection) funneled to `next(error)`. -/
inductive HResult (α : Type) where
  | ok (status : Nat) (body : α)
  | jsonErr (status : Nat) (message : String)
  | err (e : AppError)
  | raised (msg : String)
deriving DecidableEq, Repr

/-- The signed JWT claim set `\x7bid, email, role\x7d`. -/
structure Token where
  id : Nat
  email : String
  role : String
deriving DecidableEq, Repr

/-- `generateToken(user, role)`. -/
def generateToken (user : Account) (role : String) : Token :=
  ⟨user.id, user.email, role⟩

/-- JavaScript `String.prototype.toLowerCase()` on the ASCII role strings. -/
def jsToLower (s : String) : String :=
  ⟨s.data.map Char.toLower⟩

/-- JavaScript `s || d` on the nullable string `s`: the default kicks in on
`null` and on the empty string (both falsy). -/
def jsOr (s : Option String) (d : String) : String :=
  match s with
  | some r => if r = "" then d else r
  | none => d

/-- Registration request body: the leading profile field (`name` for
JobSeeker, `clinic_name` for Employer), email, cleartext password, and the
rest of the body carried opaquely. -/
structure RegisterReq where
  nameField : String
  email : String
  password : String
  otherData : List (String × String)
deriving DecidableEq, Repr

/-- Body of a successful registration response: `\x7buser, token\x7d`. -/
structure RegisterData where
  user : Profile
  token : Token
deriving DecidableEq, Repr

/-- The row inserted by `JobSeeker.create(\x7bname, email, password: hashedPassword,
...otherData\x7d)`. -/
def newJobSeekerRow (req : RegisterReq) (salt newId : Nat) : Account :=
  { id := newId, email := req.email, password := bcrypt.hash req.password salt,
    deleted := false, reset_token := none, token_expiry := none,
    role := none, modified := none,
    extra := ("name", req.nameField) :: req.otherData }

/-- The row inserted by `Employer.create(\x7bclinic_name, email,
password: hashedPassword, ...otherData\x7d)`. -/
def newEmployerRow (req : RegisterReq) (salt newId : Nat) : Account :=
  { id := newId, email := req.email, password := bcrypt.hash req.password salt,
    deleted := false, reset_token := none, token_expiry := none,
    role := none, modified := none,
    extra := ("clinic_name", req.nameField) :: req.otherData }

/-- `registerJobSeeker`. `salt` is the fresh salt drawn from
`bcrypt.genSalt(10)` and `newId` the primary key assigned by the store. -/
def registerJobSeeker (db : DB) (req : RegisterReq) (salt newId : Nat) :
    HResult RegisterData × DB :=
  if (findByEmail db.jobSeekers req.email).isSome
      || (findByEmail db.employers req.email).isSome
      || (findByEmail db.admins req.email).isSome then
    (.err (.BadRequest "Email is already registered"), db)
  else
    let jobSeeker := newJobSeekerRow req salt newId
    let token := generateToken jobSeeker "jobSeeker"
    (.ok 201 ⟨jobSeeker.toJSON, token⟩,
     { db with jobSeekers := db.jobSeekers ++ [jobSeeker] })

/-- `registerEmployer`. -/
def registerEmployer (db : DB) (req : RegisterReq) (salt newId : Nat) :
    HResult RegisterData × DB :=
  if (findByEmail db.jobSeekers req.email).isSome
      || (findByEmail db.employers req.email).isSome
      || (findByEmail db.admins req.email).isSome then
    (.err (.BadRequest "Email is already registered"), db)
  else
    let employer := newEmployerRow req salt newId
    let token := generateToken employer "employer"
    (.ok 201 ⟨employer.toJSON, token⟩,
     { db with employers := db.employers ++ [employer] })

/-- Login request body. -/
structure LoginReq where
  email : String
  password : String
deriving DecidableEq, Repr

/-- Body of a successful login response: `\x7brole, user, token\x7d`. The
`role` is nullable because `loginAdmin` answers with the raw stored role. -/
structure LoginData where
  role : Option String
  user : Profile
  token : Token
deriving DecidableEq, Repr

/-- `loginJobSeeker`. -/
def loginJobSeeker (db : DB) (req : LoginReq) : HResult LoginData :=
  match findByEmail db.jobSeekers req.email with
  | none => .err (.Unauthorized "Invalid credentials")
  | some jobSeeker =>
    if jobSeeker.deleted then .err (.Unauthorized "Account deactivated")
    else if !(bcrypt.compare req.password jobSeeker.password) then
      .err (.Unauthorized "Invalid credentials")
    else
      .ok 200 ⟨some "JobSeeker", jobSeeker.toJSON, generateToken jobSeeker "jobseeker"⟩

/-- `loginEmployer`. -/
def loginEmployer (db : DB) (req : LoginReq) : HResult LoginData :=
  match findByEmail db.employers req.email with
  | none => .err (.Unauthorized "Invalid credentials")
  | some employer =>
    if employer.deleted then .err (.Unauthorized "Account deactivated")
    else if !(bcrypt.compare req.password employer.password) then
      .err (.Unauthorized "Invalid credentials")
    else
      .ok 200 ⟨some "Employer", employer.toJSON, generateToken employer "employer"⟩

/-- `loginAdmin`. No soft-delete check; the response role is the raw stored
`admin.toJSON().role`. -/
def loginAdmin (db : DB) (req : LoginReq) : HResult LoginData :=
  match findByEmail db.admins req.email with
  | none => .err (.Unauthorized "Invalid credentials")
  | some admin =>
    if !(bcrypt.compare req.password admin.password) then
      .err (.Unauthorized "Invalid credentials")
    else
      .ok 200 ⟨admin.toJSON.role, admin.toJSON, generateToken admin "admin"⟩

/-- `unifiedLogin`: probe JobSeeker, then Employer, then Admin, short-circuit
on the first partition holding the email; the JWT role claim is the resolved
role lowercased. -/
def unifiedLogin (db : DB) (req : LoginReq) : HResult LoginData :=
  match findByEmail db.jobSeekers req.email with
  | some user =>
    if user.deleted then .err (.Unauthorized "Account deactivated")
    else if !(bcrypt.compare req.password user.password) then
      .err (.Unauthorized "Invalid credentials")
    else
      let role := "JobSeeker"
      .ok 200 ⟨some role, user.toJSON, generateToken user (jsToLower role)⟩
  | none =>
    match findByEmail db.employers req.email with
    | some user =>
      if user.deleted then .err (.Unauthorized "Account deactivated")
      else if !(bcrypt.compare req.password user.password) then
        .err (.Unauthorized "Invalid credentials")
      else
        let role := "Employer"
        .ok 200 ⟨some role, user.toJSON, generateToken user (jsToLower role)⟩
    | none =>
      match findByEmail db.admins req.email with
      | some user =>
        if !(bcrypt.compare req.password user.password) then
          .err (.Unauthorized "Invalid credentials")
        else
          let role := jsOr user.role "Admin"
          .ok 200 ⟨some role, user.toJSON, generateToken user (jsToLower role)⟩
      | none => .err (.Unauthorized "Invalid credentials")

/-- The authenticated identity `req.user` extracted from the verified token by
the upstream middleware. -/
structure AuthIdentity where
  id : Nat
  role : String
deriving DecidableEq, Repr

/-- `getCurrentUser`: dispatch on the role tag; `admin` fetches the full row,
`employer` and `jobSeeker` fetch with the password attribute excluded; any
other tag is rejected. -/
def getCurrentUser (db : DB) (ident : AuthIdentity) : HResult Profile :=
  if ident.role = "admin" then
    match findByPk db.admins ident.id with
    | none => .err (.NotFound "User not found")
    | some user => .ok 200 user.toJSON
  else if ident.role = "employer" then
    match findByPkExclPassword db.employers ident.id with
    | none => .err (.NotFound "User not found")
    | some user => .ok 200 user
  else if ident.role = "jobSeeker" then
    match findByPkExclPassword db.jobSeekers ident.id with
    | none => .err (.NotFound "User not found")
    | some user => .ok 200 user
  else .err (.Unauthorized "Invalid role")

/-- Change-password request body. -/
structure ChangePwReq where
  currentPassword : String
  newPassword : String
deriving DecidableEq, Repr

/-- The mutated row written back by `changePassword` on success:
`user.password = hashedPassword; user.modified = new Date()`. -/
def changedRow (user : Account) (req : ChangePwReq) (salt now : Nat) : Account :=
  { user with password := bcrypt.hash req.newPassword salt, modified := some now }

/-- The post-lookup part of `changePassword`: verify the current password,
then replace the stored hash and stamp `modified`. -/
def changePasswordOn (user : Account) (req : ChangePwReq) (salt now : Nat) :
    Except AppError Account :=
  if !(bcrypt.compare req.currentPassword user.password) then
    .error (.Unauthorized "Current password is incorrect")
  else
    .ok (changedRow user req salt now)

/-- `changePassword`. `salt` is the fresh salt from `bcrypt.genSalt(10)` and
`now` the timestamp taken by `new Date()`. -/
def changePassword (db : DB) (ident : AuthIdentity) (req : ChangePwReq)
    (salt now : Nat) : HResult String × DB :=
  if ident.role = "admin" then
    match findByPk db.admins ident.id with
    | none => (.err (.NotFound "User not found"), db)
    | some user =>
      match changePasswordOn user req salt now with
      | .error e => (.err e, db)
      | .ok u =>
        (.ok 200 "Password updated successfully",
         { db with admins := updateById db.admins ident.id u })
  else if ident.role = "employer" then
    match findByPk db.employers ident.id with
    | none => (.err (.NotFound "User not found"), db)
    | some user =>
      match changePasswordOn user req salt now with
      | .error e => (.err e, db)
      | .ok u =>
        (.ok 200 "Password updated successfully",
         { db with employers := updateById db.employers ident.id u })
  else if ident.role = "jobSeeker" then
    match findByPk db.jobSeekers ident.id with
    | none => (.err (.NotFound "User not found"), db)
    | some user =>
      match changePasswordOn user req salt now with
      | .error e => (.err e, db)
      | .ok u =>
        (.ok 200 "Password updated successfully",
         { db with jobSeekers := updateById db.jobSeekers ident.id u })
  else (.err (.Unauthorized "Invalid role"), db)

/-- One hexadecimal digit, lowercase (`0`-`9`, `a`-`f`). -/
def hexDigit (n : Nat) : Char :=
  if n < 10 then Char.ofNat (48 + n) else Char.ofNat (87 + n)

/-- The two hex digits of one byte. -/
def byteToHex (b : Nat) : List Char :=
  [hexDigit (b / 16), hexDigit (b % 16)]

/-- `Buffer.toString("hex")`: lowercase hex encoding of a byte sequence.
`crypto.randomBytes(32).toString("hex")` is `bytesToHex` of the 32 random
bytes. -/
def bytesToHex (bs : List Nat) : String :=
  ⟨(bs.map byteToHex).flatten⟩

/-- Whether a character is a lowercase hexadecimal digit. -/
def isHexChar (c : Char) : Bool :=
  (48 ≤ c.toNat && c.toNat ≤ 57) || (97 ≤ c.toNat && c.toNat ≤ 102)

/-- The mutation of `requestPasswordReset` on the matched row:
`user.reset_token = resetToken; user.token_expiry = new Date(Date.now() + 15*60*1000)`. -/
def stampReset (a : Account) (tok : String) (expiry : Nat) : Account :=
  { a with reset_token := some tok, token_expiry := some expiry }

/-- The mutation of `resetPassword` on the matched row: store the fresh hash
and null `reset_token` and `token_expiry` in the same write. -/
def consumeReset (a : Account) (newPassword : String) (salt : Nat) : Account :=
  { a with password := bcrypt.hash newPassword salt,
           reset_token := none, token_expiry := none }

/-- Password-reset request body. -/
structure ResetReq where
  email : String
  role : String
deriving DecidableEq, Repr

/-- `requestPasswordReset`. `randomBytes` are the 32 bytes drawn from
`crypto.randomBytes`, `now` the current time in ms, `verifyOk` the outcome of
the asynchronous `transporter.verify` connectivity probe (its failure is only
logged), and `sendOk` whether the awaited `transporter.sendMail` resolves; a
rejection of `sendMail` escapes to the catch block and is funneled to
`next(error)`. -/
def requestPasswordReset (db : DB) (req : ResetReq) (randomBytes : List Nat)
    (now : Nat) (verifyOk sendOk : Bool) : HResult String × DB :=
  let accounts := if req.role == "employer" then db.employers else db.jobSeekers
  match findByEmail accounts req.email with
  | none => (.jsonErr 404 "Email not found", db)
  | some user =>
    let resetToken := bytesToHex randomBytes
    let user' := stampReset user resetToken (now + 15 * 60 * 1000)
    let db' :=
      if req.role == "employer" then
        { db with employers := updateById db.employers user.id user' }
      else
        { db with jobSeekers := updateById db.jobSeekers user.id user' }
    if sendOk then (.ok 200 "Reset email sent!", db')
    else (.raised "sendMail rejected", db')

/-- The `where` predicate of `resetPassword`:
`reset_token` equals the given token and `token_expiry` is strictly in the
future. -/
def resetMatches (token : String) (now : Nat) (a : Account) : Bool :=
  a.reset_token == some token &&
    (match a.token_expiry with
     | some t => decide (now < t)
     | none => false)

/-- Reset-password request body. -/
structure DoResetReq where
  token : String
  role : String
  newPassword : String
deriving DecidableEq, Repr

/-- `resetPassword`. `salt` is the fresh salt of `bcrypt.hash(newPassword, 10)`
and `now` the time of `new Date()` in the query. -/
def resetPassword (db : DB) (req : DoResetReq) (salt now : Nat) :
    HResult String × DB :=
  let accounts := if req.role == "employer" then db.employers else db.jobSeekers
  match accounts.find? (resetMatches req.token now) with
  | none => (.jsonErr 400 "Invalid or expired token", db)
  | some user =>
    let user' := consumeReset user req.newPassword salt
    if req.role == "employer" then
      (.ok 200 "Password reset successful!",
       { db with employers := updateById db.employers user.id user' })
    else
      (.ok 200 "Password reset successful!",
       { db with jobSeekers := updateById db.jobSeekers user.id user' })

/-! Concrete rows and stores used to instantiate the theorems. -/

/-- An active job-seeker row with a hashed password. -/
def activeJS : Account :=
  { id := 1, email := "a@x.com", password := bcrypt.hash "pw" 0, deleted := false,
    reset_token := none, token_expiry := none, role := none, modified := none,
    extra := [] }

/-- A soft-deleted job-seeker row. -/
def deletedJS : Account :=
  { activeJS with deleted := true }

/-- An admin row. -/
def adminAcc : Account :=
  { id := 7, email := "adm@x.com", password := bcrypt.hash "pw" 0, deleted := false,
    reset_token := none, token_expiry := none, role := some "SuperAdmin",
    modified := none, extra := [] }

/-- The empty store. -/
def dbEmpty : DB := ⟨[], [], []⟩

/-- A store holding only `activeJS`. -/
def dbJS1 : DB := ⟨[activeJS], [], []⟩

/-- A store holding only `deletedJS`. -/
def dbDeletedJS : DB := ⟨[deletedJS], [], []⟩

/-- A store holding only `adminAcc`. -/
def dbAdmin1 : DB := ⟨[], [], [adminAcc]⟩

/-- 32 zero bytes, standing in for one draw of `crypto.randomBytes(32)`. -/
def bytes32 : List Nat := List.replicate 32 0

/-- A job-seeker row holding an active reset token with expiry 100. -/
def resetJS : Account :=
  { activeJS with reset_token := some "tok", token_expiry := some 100 }

/-- A store holding only `resetJS`. -/
def dbResetJS : DB := ⟨[resetJS], [], []⟩

/-! Helper lemmas shared between the claim theorems. -/

lemma toLower_JobSeeker : jsToLower "JobSeeker" = "jobseeker" := by decide

lemma toLower_Employer : jsToLower "Employer" = "employer" := by decide

lemma find?_isSome_iff {p : Account → Bool} {l : List Account} :
    (l.find? p).isSome = true ↔ ∃ a ∈ l, p a = true := by
  induction l with
  | nil => simp [List.find?]
  | cons x xs ih =>
    by_cases hx : p x = true
    · simp [List.find?, hx]
    · simp only [List.find?, Bool.not_eq_true] at hx ⊢
      rw [hx]
      simp only [ih, List.mem_cons]
      constructor
      · rintro ⟨a, ha, hpa⟩; exact ⟨a, Or.inr ha, hpa⟩
      · rintro ⟨a, ha | ha, hpa⟩
        · subst ha; simp [hpa] at hx
        · exact ⟨a, ha, hpa⟩

lemma resetMatches_iff {tok : String} {now : Nat} {a : Account} :
    resetMatches tok now a = true ↔
      a.reset_token = some tok ∧ ∃ t, a.token_expiry = some t ∧ now < t := by
  unfold resetMatches
  cases a.token_expiry with
  | none => simp
  | some t => simp [beq_iff_eq]

/-- C1 (counterexample): the claim says every per-role login failure carries
the identical message "Invalid credentials". On a store holding a soft-deleted
job seeker with the correct password, `loginJobSeeker` instead fails with
`Unauthorized("Account deactivated")`, a distinguishable message. -/
theorem C1_deleted_account_message_counterexample :
    loginJobSeeker dbDeletedJS ⟨"a@x.com", "pw"⟩ =
      HResult.err (.Unauthorized "Account deactivated") ∧
    AppError.Unauthorized "Account deactivated" ≠
      AppError.Unauthorized "Invalid credentials" := by
  constructor
  · decide
  · decide

/-- C1 (amended): every failure of `loginJobSeeker`, `loginEmployer` and
`loginAdmin` is an `Unauthorized` error; unknown email and failed password
verification both yield the identical "Invalid credentials", while a
soft-deleted account (JobSeeker/Employer only) yields the distinct
"Account deactivated"; `loginAdmin` has no deleted check and only ever fails
with "Invalid credentials". -/
theorem C1_login_failure_messages (db : DB) (req : LoginReq) :
    (∀ e, loginJobSeeker db req = .err e →
        e = AppError.Unauthorized "Invalid credentials" ∨
        e = AppError.Unauthorized "Account deactivated") ∧
    (loginJobSeeker db req = .err (.Unauthorized "Account deactivated") ↔
        ∃ u, findByEmail db.jobSeekers req.email = some u ∧ u.deleted = true) ∧
    (∀ e, loginEmployer db req = .err e →
        e = AppError.Unauthorized "Invalid credentials" ∨
        e = AppError.Unauthorized "Account deactivated") ∧
    (loginEmployer db req = .err (.Unauthorized "Account deactivated") ↔
        ∃ u, findByEmail db.employers req.email = some u ∧ u.deleted = true) ∧
    (∀ e, loginAdmin db req = .err e →
        e = AppError.Unauthorized "Invalid credentials") := by
  refine ⟨?_, ?_, ?_, ?_, ?_⟩
  · intro e he
    rcases hf : findByEmail db.jobSeekers req.email with _ | u <;>
      simp only [loginJobSeeker, hf] at he
    · exact Or.inl (by injection he with h; exact h.symm)
    · split_ifs at he with h1 h2
      · exact Or.inr (by injection he with h; exact h.symm)
      · exact Or.inl (by injection he with h; exact h.symm)
  · rcases hf : findByEmail db.jobSeekers req.email with _ | u <;>
      simp only [loginJobSeeker, hf]
    · constructor
      · intro he; exact absurd he (by decide)
      · rintro ⟨v, hv, _⟩; exact Option.noConfusion hv
    · constructor
      · intro he
        split_ifs at he with h1 h2
        · exact ⟨u, rfl, h1⟩
        · injection he with h
          exact absurd h (by decide)
      · rintro ⟨v, hv, hd⟩
        injection hv with hv; subst hv
        simp [hd]
  · intro e he
    rcases hf : findByEmail db.employers req.email with _ | u <;>
      simp only [loginEmployer, hf] at he
    · exact Or.inl (by injection he with h; exact h.symm)
    · split_ifs at he with h1 h2
      · exact Or.inr (by injection he with h; exact h.symm)
      · exact Or.inl (by injection he with h; exact h.symm)
  · rcases hf : findByEmail db.employers req.email with _ | u <;>
      simp only [loginEmployer, hf]
    · constructor
      · intro he; exact absurd he (by decide)
      · rintro ⟨v, hv, _⟩; exact Option.noConfusion hv
    · constructor
      · intro he
        split_ifs at he with h1 h2
        · exact ⟨u, rfl, h1⟩
        · injection he with h
          exact absurd h (by decide)
      · rintro ⟨v, hv, hd⟩
        injection hv with hv; subst hv
        simp [hd]
  · intro e he
    rcases hf : findByEmail db.admins req.email with _ | u <;>
      simp only [loginAdmin, hf] at he
    · exact (by injection he with h; exact h.symm)
    · split_ifs at he with h1
      exact (by injection he with h; exact h.symm)

/-- C1 (witness): instantiation of the amended theorem on the empty store,
where the job-seeker login fails and the error is one of the two messages. -/
theorem C1_login_failure_messages_witness :
    AppError.Unauthorized "Invalid credentials" =
      AppError.Unauthorized "Invalid credentials" ∨
    AppError.Unauthorized "Invalid credentials" =
      AppError.Unauthorized "Account deactivated" :=
  (C1_login_failure_messages dbEmpty ⟨"a@x.com", "pw"⟩).1
    (AppError.Unauthorized "Invalid credentials") (by decide)

/-- C2: `unifiedLogin` probes the partitions in the fixed order JobSeeker,
Employer, Admin, short-circuiting on the first partition containing the email;
on a JobSeeker or Employer match it behaves exactly like the per-role login
(same deleted/password checks, same response and token); on an Admin match it
applies only the password check (no deleted check) and returns the
finer-grained role stored on the account, defaulting to "Admin"; if no
partition contains the email it throws Unauthorized("Invalid credentials"). -/
theorem C2_unified_login_partition_priority (db : DB) (req : LoginReq) :
    ((findByEmail db.jobSeekers req.email).isSome = true →
        unifiedLogin db req = loginJobSeeker db req) ∧
    (findByEmail db.jobSeekers req.email = none →
      (findByEmail db.employers req.email).isSome = true →
        unifiedLogin db req = loginEmployer db req) ∧
    (∀ u, findByEmail db.jobSeekers req.email = none →
        findByEmail db.employers req.email = none →
        findByEmail db.admins req.email = some u →
        unifiedLogin db req =
          (if bcrypt.compare req.password u.password then
            HResult.ok 200 ⟨some (jsOr u.role "Admin"), u.toJSON,
              generateToken u (jsToLower (jsOr u.role "Admin"))⟩
          else .err (.Unauthorized "Invalid credentials"))) ∧
    (findByEmail db.jobSeekers req.email = none →
      findByEmail db.employers req.email = none →
      findByEmail db.admins req.email = none →
        unifiedLogin db req = .err (.Unauthorized "Invalid credentials")) := by
  refine ⟨?_, ?_, ?_, ?_⟩
  · intro hs
    obtain ⟨u, hu⟩ := Option.isSome_iff_exists.mp hs
    simp only [unifiedLogin, loginJobSeeker, hu, toLower_JobSeeker]
  · intro h1 hs
    obtain ⟨u, hu⟩ := Option.isSome_iff_exists.mp hs
    simp only [unifiedLogin, loginEmployer, h1, hu, toLower_Employer]
  · intro u h1 h2 h3
    simp only [unifiedLogin, h1, h2, h3]
    cases hc : bcrypt.compare req.password u.password <;> simp [hc]
  · intro h1 h2 h3
    simp only [unifiedLogin, h1, h2, h3]

/-- C2 (witness): on a store holding one active job seeker, unified login
coincides with the job-seeker login; on the empty store it throws the generic
Unauthorized error. -/
theorem C2_unified_login_partition_priority_witness :
    unifiedLogin dbJS1 ⟨"a@x.com", "pw"⟩ = loginJobSeeker dbJS1 ⟨"a@x.com", "pw"⟩ ∧
    unifiedLogin dbEmpty ⟨"a@x.com", "pw"⟩ =
      .err (.Unauthorized "Invalid credentials") :=
  ⟨(C2_unified_login_partition_priority dbJS1 ⟨"a@x.com", "pw"⟩).1 (by decide),
   (C2_unified_login_partition_priority dbEmpty ⟨"a@x.com", "pw"⟩).2.2.2
     (by decide) (by decide) (by decide)⟩

/-- C3: if an account with the requested email exists in any of the three
partitions — soft-deleted accounts included, since the lookup does not filter
on the deleted flag — both registrations fail with
BadRequest("Email is already registered") and leave the store unchanged
(no row created). -/
theorem C3_duplicate_email_rejected (db : DB) (req : RegisterReq)
    (salt newId : Nat)
    (h : (findByEmail db.jobSeekers req.email).isSome = true ∨
         (findByEmail db.employers req.email).isSome = true ∨
         (findByEmail db.admins req.email).isSome = true) :
    registerJobSeeker db req salt newId =
      (.err (.BadRequest "Email is already registered"), db) ∧
    registerEmployer db req salt newId =
      (.err (.BadRequest "Email is already registered"), db) := by
  have hcond : ((findByEmail db.jobSeekers req.email).isSome
      || (findByEmail db.employers req.email).isSome
      || (findByEmail db.admins req.email).isSome) = true := by
    rcases h with h | h | h <;> simp [h]
  constructor
  · simp only [registerJobSeeker]
    rw [if_pos]
    exact hcond
  · simp only [registerEmployer]
    rw [if_pos]
    exact hcond

/-- C3 (witness): registering either kind of account with the email of an
already existing, soft-deleted job seeker fails with BadRequest and writes
nothing. -/
theorem C3_duplicate_email_rejected_witness :
    registerJobSeeker dbDeletedJS ⟨"n", "a@x.com", "pw2", []⟩ 0 2 =
      (.err (.BadRequest "Email is already registered"), dbDeletedJS) ∧
    registerEmployer dbDeletedJS ⟨"c", "a@x.com", "pw2", []⟩ 0 2 =
      (.err (.BadRequest "Email is already registered"), dbDeletedJS) :=
  ⟨(C3_duplicate_email_rejected dbDeletedJS ⟨"n", "a@x.com", "pw2", []⟩ 0 2
      (Or.inl (by decide))).1,
   (C3_duplicate_email_rejected dbDeletedJS ⟨"c", "a@x.com", "pw2", []⟩ 0 2
      (Or.inl (by decide))).2⟩

/-- C4: when the email is free in all three partitions, registration answers
201 with the created profile serialized without the password field, plus a
token freshly issued for the created row; the stored row carries the salted
hash of the request password under this call's fresh salt, and never the
cleartext password. -/
theorem C4_register_success (db : DB) (req : RegisterReq) (salt newId : Nat)
    (h1 : findByEmail db.jobSeekers req.email = none)
    (h2 : findByEmail db.employers req.email = none)
    (h3 : findByEmail db.admins req.email = none) :
    registerJobSeeker db req salt newId =
      (.ok 201 ⟨(newJobSeekerRow req salt newId).toJSON,
                generateToken (newJobSeekerRow req salt newId) "jobSeeker"⟩,
       { db with jobSeekers := db.jobSeekers ++ [newJobSeekerRow req salt newId] }) ∧
    (newJobSeekerRow req salt newId).toJSON.password = none ∧
    (newJobSeekerRow req salt newId).password = bcrypt.hash req.password salt ∧
    (newJobSeekerRow req salt newId).password ≠ PValue.clear req.password ∧
    registerEmployer db req salt newId =
      (.ok 201 ⟨(newEmployerRow req salt newId).toJSON,
                generateToken (newEmployerRow req salt newId) "employer"⟩,
       { db with employers := db.employers ++ [newEmployerRow req salt newId] }) ∧
    (newEmployerRow req salt newId).toJSON.password = none ∧
    (newEmployerRow req salt newId).password = bcrypt.hash req.password salt ∧
    (newEmployerRow req salt newId).password ≠ PValue.clear req.password := by
  refine ⟨?_, rfl, rfl, by simp [newJobSeekerRow, bcrypt.hash],
          ?_, rfl, rfl, by simp [newEmployerRow, bcrypt.hash]⟩
  · simp [registerJobSeeker, h1, h2, h3]
  · simp [registerEmployer, h1, h2, h3]

/-- C4 (witness): registering a job seeker on the empty store creates exactly
the expected row and answers 201 with the password-free profile and token. -/
theorem C4_register_success_witness :
    registerJobSeeker dbEmpty ⟨"n", "a@x.com", "pw", []⟩ 0 1 =
      (.ok 201 ⟨(newJobSeekerRow ⟨"n", "a@x.com", "pw", []⟩ 0 1).toJSON,
                generateToken (newJobSeekerRow ⟨"n", "a@x.com", "pw", []⟩ 0 1) "jobSeeker"⟩,
       { dbEmpty with jobSeekers :=
           dbEmpty.jobSeekers ++ [newJobSeekerRow ⟨"n", "a@x.com", "pw", []⟩ 0 1] }) ∧
    (newJobSeekerRow ⟨"n", "a@x.com", "pw", []⟩ 0 1).toJSON.password = none :=
  ⟨(C4_register_success dbEmpty ⟨"n", "a@x.com", "pw", []⟩ 0 1 rfl rfl rfl).1,
   (C4_register_success dbEmpty ⟨"n", "a@x.com", "pw", []⟩ 0 1 rfl rfl rfl).2.1⟩

lemma resetPassword_eq_match (db : DB) (req : DoResetReq) (salt now : Nat) :
    resetPassword db req salt now =
      match (if req.role == "employer" then db.employers else db.jobSeekers).find?
          (resetMatches req.token now) with
      | none => (.jsonErr 400 "Invalid or expired token", db)
      | some user =>
        (.ok 200 "Password reset successful!",
         if req.role == "employer" then
           { db with employers :=
                updateById db.employers user.id (consumeReset user req.newPassword salt) }
         else
           { db with jobSeekers :=
                updateById db.jobSeekers user.id (consumeReset user req.newPassword salt) }) := by
  unfold resetPassword
  cases hf : (if req.role == "employer" then db.employers else db.jobSeekers).find?
      (resetMatches req.token now) <;> simp only [hf]
  cases hb : req.role == "employer" <;> simp [hb]

/-- C5: `resetPassword` succeeds (200 "Password reset successful!") exactly
when some account of the selected partition holds `reset_token` equal to the
given token with `token_expiry` strictly in the future; on no match it answers
the single generic 400 "Invalid or expired token" and writes nothing; on a
match it stores a fresh salted hash of the new password and nulls
`reset_token` and `token_expiry` in the same write; an account whose
`reset_token` is null (a consumed token) never matches, for any request
token. -/
theorem C5_reset_password_token_lifecycle (db : DB) (req : DoResetReq)
    (salt now : Nat) :
    ((∃ a ∈ (if req.role == "employer" then db.employers else db.jobSeekers),
        a.reset_token = some req.token ∧ ∃ t, a.token_expiry = some t ∧ now < t) ↔
      (resetPassword db req salt now).1 = .ok 200 "Password reset successful!") ∧
    ((if req.role == "employer" then db.employers else db.jobSeekers).find?
        (resetMatches req.token now) = none →
      resetPassword db req salt now = (.jsonErr 400 "Invalid or expired token", db)) ∧
    (∀ u, (if req.role == "employer" then db.employers else db.jobSeekers).find?
        (resetMatches req.token now) = some u →
      resetPassword db req salt now =
        (.ok 200 "Password reset successful!",
         if req.role == "employer" then
           { db with employers :=
                updateById db.employers u.id (consumeReset u req.newPassword salt) }
         else
           { db with jobSeekers :=
                updateById db.jobSeekers u.id (consumeReset u req.newPassword salt) })) ∧
    (∀ a, a.reset_token = none → resetMatches req.token now a = false) := by
  refine ⟨?_, ?_, ?_, ?_⟩
  · constructor
    · rintro ⟨a, ha, h1, t, h2, h3⟩
      have hs : ((if req.role == "employer" then db.employers else db.jobSeekers).find?
          (resetMatches req.token now)).isSome = true :=
        find?_isSome_iff.mpr ⟨a, ha, resetMatches_iff.mpr ⟨h1, t, h2, h3⟩⟩
      obtain ⟨u, hu⟩ := Option.isSome_iff_exists.mp hs
      rw [resetPassword_eq_match, hu]
    · intro h
      rcases hf : (if req.role == "employer" then db.employers else db.jobSeekers).find?
          (resetMatches req.token now) with _ | u
      · rw [resetPassword_eq_match, hf] at h
        exact absurd h (by simp)
      · obtain ⟨h1, t, h2, h3⟩ := resetMatches_iff.mp (List.find?_some hf)
        exact ⟨u, List.mem_of_find?_eq_some hf, h1, t, h2, h3⟩
  · intro hf
    rw [resetPassword_eq_match, hf]
  · intro u hf
    rw [resetPassword_eq_match, hf]
  · intro a ha
    simp [resetMatches, ha]

/-- C5 (witness): on a store whose job seeker holds token "tok" with expiry
100, resetting with "tok" at time 0 succeeds, and resetting with a wrong
token answers the generic 400 and writes nothing. -/
theorem C5_reset_password_token_lifecycle_witness :
    (resetPassword dbResetJS ⟨"tok", "jobSeeker", "pw2"⟩ 1 0).1 =
      .ok 200 "Password reset successful!" ∧
    resetPassword dbResetJS ⟨"nope", "jobSeeker", "pw2"⟩ 1 0 =
      (.jsonErr 400 "Invalid or expired token", dbResetJS) :=
  ⟨(C5_reset_password_token_lifecycle dbResetJS ⟨"tok", "jobSeeker", "pw2"⟩ 1 0).1.mp
      ⟨resetJS, by decide, by decide, 100, by decide, by decide⟩,
   (C5_reset_password_token_lifecycle dbResetJS ⟨"nope", "jobSeeker", "pw2"⟩ 1 0).2.1
      (by decide)⟩

lemma hexDigit_isHexChar {n : Nat} (h : n < 16) : isHexChar (hexDigit n) = true := by
  interval_cases n <;> decide

lemma flatten_hex_length (bs : List Nat) :
    ((bs.map byteToHex).flatten).length = 2 * bs.length := by
  induction bs with
  | nil => rfl
  | cons b tl ih =>
    simp only [List.map_cons, List.flatten_cons, List.length_append, ih, byteToHex,
      List.length_cons, List.length_nil]
    omega

lemma bytesToHex_length (bs : List Nat) : (bytesToHex bs).length = 2 * bs.length :=
  flatten_hex_length bs

lemma bytesToHex_chars {bs : List Nat} (hb : ∀ b ∈ bs, b < 256) :
    ∀ c ∈ (bytesToHex bs).data, isHexChar c = true := by
  intro c hc
  have hc' : c ∈ (bs.map byteToHex).flatten := hc
  rw [List.mem_flatten] at hc'
  obtain ⟨l, hl, hcl⟩ := hc'
  rw [List.mem_map] at hl
  obtain ⟨b, hbmem, rfl⟩ := hl
  have hblt : b < 256 := hb b hbmem
  simp only [byteToHex, List.mem_cons, List.not_mem_nil, or_false] at hcl
  rcases hcl with rfl | rfl
  · exact hexDigit_isHexChar ((Nat.div_lt_iff_lt_mul (by norm_num)).mpr (by omega))
  · exact hexDigit_isHexChar (Nat.mod_lt _ (by norm_num))

/-- C6 (counterexample): the claim says the HTTP response always reports
success (200) once the token is persisted, regardless of whether the reset
email sends. With a matching account and a rejecting `sendMail`, the awaited
send throws inside the try block, so the handler answers through the error
funnel, not 200 — even though the token and expiry were already persisted. -/
theorem C6_send_failure_counterexample :
    (requestPasswordReset dbJS1 ⟨"a@x.com", "jobSeeker"⟩ bytes32 0 true false).1 ≠
      HResult.ok 200 "Reset email sent!" ∧
    (requestPasswordReset dbJS1 ⟨"a@x.com", "jobSeeker"⟩ bytes32 0 true false).1 =
      HResult.raised "sendMail rejected" ∧
    (requestPasswordReset dbJS1 ⟨"a@x.com", "jobSeeker"⟩ bytes32 0 true false).2.jobSeekers =
      [stampReset activeJS (bytesToHex bytes32) 900000] :=
  ⟨by decide, by decide, by decide⟩

/-- C6 (amended): on a matching account, `requestPasswordReset` generates a
256-bit hex-encoded token (64 lowercase hex characters from 32 random bytes)
and persists it with expiry 15 minutes after issuance; the outcome of the
asynchronous `transporter.verify` connectivity probe is only logged and never
affects the result; but the response is 200 exactly when the awaited
`sendMail` resolves — a send failure is funneled to the error middleware
instead of answering 200, while the token stays persisted either way. -/
theorem C6_reset_request_behaviour (db : DB) (req : ResetReq)
    (bytes : List Nat) (now : Nat) (verifyOk sendOk : Bool) (u : Account)
    (hu : findByEmail (if req.role == "employer" then db.employers else db.jobSeekers)
        req.email = some u)
    (hlen : bytes.length = 32) (hb : ∀ b ∈ bytes, b < 256) :
    (bytesToHex bytes).length = 64 ∧
    (∀ c ∈ (bytesToHex bytes).data, isHexChar c = true) ∧
    (requestPasswordReset db req bytes now verifyOk sendOk).2 =
      (if req.role == "employer" then
        { db with employers := updateById db.employers u.id (stampReset u (bytesToHex bytes) (now + 15 * 60 * 1000)) }
       else
        { db with jobSeekers := updateById db.jobSeekers u.id (stampReset u (bytesToHex bytes) (now + 15 * 60 * 1000)) }) ∧
    requestPasswordReset db req bytes now verifyOk sendOk =
      requestPasswordReset db req bytes now true sendOk ∧
    ((requestPasswordReset db req bytes now verifyOk sendOk).1 =
        HResult.ok 200 "Reset email sent!" ↔ sendOk = true) ∧
    (sendOk = false →
      (requestPasswordReset db req bytes now verifyOk sendOk).1 =
        HResult.raised "sendMail rejected") := by
  refine ⟨?_, bytesToHex_chars hb, ?_, rfl, ?_, ?_⟩
  · rw [bytesToHex_length, hlen]
  · simp only [requestPasswordReset, hu]
    cases sendOk <;> cases hr : req.role == "employer" <;> simp [hr]
  · simp only [requestPasswordReset, hu]
    cases sendOk <;> cases hr : req.role == "employer" <;> simp [hr]
  · intro hs
    subst hs
    simp only [requestPasswordReset, hu]
    cases hr : req.role == "employer" <;> simp [hr]

/-- C6 (witness): on the one-job-seeker store with a resolving `sendMail`,
the generated token has 64 hex characters and the response is 200. -/
theorem C6_reset_request_behaviour_witness :
    (bytesToHex bytes32).length = 64 ∧
    ((requestPasswordReset dbJS1 ⟨"a@x.com", "jobSeeker"⟩ bytes32 0 true true).1 =
        HResult.ok 200 "Reset email sent!" ↔ true = true) :=
  ⟨(C6_reset_request_behaviour dbJS1 ⟨"a@x.com", "jobSeeker"⟩ bytes32 0 true true
      activeJS (by decide) (by decide) (by decide)).1,
   (C6_reset_request_behaviour dbJS1 ⟨"a@x.com", "jobSeeker"⟩ bytes32 0 true true
      activeJS (by decide) (by decide) (by decide)).2.2.2.2.1⟩

/-- C7: `getCurrentUser` dispatches on the role tag to the matching partition
by primary key; every successful (200) profile carries no password field; a
missing row yields NotFound("User not found"); any tag other than "admin",
"employer", "jobSeeker" yields Unauthorized("Invalid role"). -/
theorem C7_get_current_user_dispatch (db : DB) (ident : AuthIdentity) :
    (∀ p, getCurrentUser db ident = .ok 200 p → p.password = none) ∧
    (ident.role = "admin" →
      getCurrentUser db ident =
        match findByPk db.admins ident.id with
        | none => .err (.NotFound "User not found")
        | some u => .ok 200 u.toJSON) ∧
    (ident.role = "employer" →
      getCurrentUser db ident =
        match findByPkExclPassword db.employers ident.id with
        | none => .err (.NotFound "User not found")
        | some p => .ok 200 p) ∧
    (ident.role = "jobSeeker" →
      getCurrentUser db ident =
        match findByPkExclPassword db.jobSeekers ident.id with
        | none => .err (.NotFound "User not found")
        | some p => .ok 200 p) ∧
    (ident.role ≠ "admin" → ident.role ≠ "employer" → ident.role ≠ "jobSeeker" →
      getCurrentUser db ident = .err (.Unauthorized "Invalid role")) := by
  refine ⟨?_, ?_, ?_, ?_, ?_⟩
  · intro p hp
    unfold getCurrentUser at hp
    split_ifs at hp
    · rcases hf : findByPk db.admins ident.id with _ | u <;> rw [hf] at hp
      · exact absurd hp (by simp)
      · injection hp with h1 h2
        rw [← h2]
        rfl
    · rcases hf : findByPkExclPassword db.employers ident.id with _ | q <;>
        rw [hf] at hp
      · exact absurd hp (by simp)
      · injection hp with h1 h2
        rw [← h2]
        obtain ⟨a, _, rfl⟩ := Option.map_eq_some'.mp hf
        rfl
    · rcases hf : findByPkExclPassword db.jobSeekers ident.id with _ | q <;>
        rw [hf] at hp
      · exact absurd hp (by simp)
      · injection hp with h1 h2
        rw [← h2]
        obtain ⟨a, _, rfl⟩ := Option.map_eq_some'.mp hf
        rfl
  · intro hr
    simp [getCurrentUser, hr]
  · intro hr
    simp [getCurrentUser, hr]
  · intro hr
    simp [getCurrentUser, hr]
  · intro h1 h2 h3
    simp [getCurrentUser, h1, h2, h3]

/-- C7 (witness): on a store holding one admin row, the admin identity gets
its serialized profile (password excluded); an unrecognized tag is rejected
with Unauthorized("Invalid role"). -/
theorem C7_get_current_user_dispatch_witness :
    getCurrentUser dbAdmin1 ⟨7, "admin"⟩ =
      (match findByPk dbAdmin1.admins 7 with
       | none => .err (.NotFound "User not found")
       | some u => .ok 200 u.toJSON) ∧
    getCurrentUser dbAdmin1 ⟨7, "jobseeker"⟩ =
      .err (.Unauthorized "Invalid role") :=
  ⟨(C7_get_current_user_dispatch dbAdmin1 ⟨7, "admin"⟩).2.1 rfl,
   (C7_get_current_user_dispatch dbAdmin1 ⟨7, "jobseeker"⟩).2.2.2.2
     (by decide) (by decide) (by decide)⟩

/-- C8: `changePassword` under each recognized role tag: when the account row
exists and the current password verifies, the handler answers 200 with only a
message (no token in the response) and rewrites exactly that row to
`changedRow` — same email, reset_token and token_expiry, with only the
password hash (freshly salted from the new password) and the modification
timestamp replaced; a missing row answers NotFound("User not found") writing
nothing; a failing verification answers
Unauthorized("Current password is incorrect") writing nothing. -/
theorem C8_change_password_frame (db : DB) (ident : AuthIdentity)
    (req : ChangePwReq) (salt now : Nat) :
    (∀ u, ident.role = "admin" → findByPk db.admins ident.id = some u →
      bcrypt.compare req.currentPassword u.password = true →
      changePassword db ident req salt now =
        (.ok 200 "Password updated successfully",
         { db with admins := updateById db.admins ident.id (changedRow u req salt now) })) ∧
    (∀ u, ident.role = "employer" → findByPk db.employers ident.id = some u →
      bcrypt.compare req.currentPassword u.password = true →
      changePassword db ident req salt now =
        (.ok 200 "Password updated successfully",
         { db with employers := updateById db.employers ident.id (changedRow u req salt now) })) ∧
    (∀ u, ident.role = "jobSeeker" → findByPk db.jobSeekers ident.id = some u →
      bcrypt.compare req.currentPassword u.password = true →
      changePassword db ident req salt now =
        (.ok 200 "Password updated successfully",
         { db with jobSeekers := updateById db.jobSeekers ident.id (changedRow u req salt now) })) ∧
    (∀ u, (changedRow u req salt now).password = bcrypt.hash req.newPassword salt ∧
      (changedRow u req salt now).modified = some now ∧
      (changedRow u req salt now).email = u.email ∧
      (changedRow u req salt now).reset_token = u.reset_token ∧
      (changedRow u req salt now).token_expiry = u.token_expiry ∧
      (changedRow u req salt now).deleted = u.deleted ∧
      (changedRow u req salt now).id = u.id ∧
      (changedRow u req salt now).role = u.role ∧
      (changedRow u req salt now).extra = u.extra) ∧
    (ident.role = "admin" → findByPk db.admins ident.id = none →
      changePassword db ident req salt now = (.err (.NotFound "User not found"), db)) ∧
    (ident.role = "employer" → findByPk db.employers ident.id = none →
      changePassword db ident req salt now = (.err (.NotFound "User not found"), db)) ∧
    (ident.role = "jobSeeker" → findByPk db.jobSeekers ident.id = none →
      changePassword db ident req salt now = (.err (.NotFound "User not found"), db)) ∧
    (∀ u, ident.role = "admin" → findByPk db.admins ident.id = some u →
      bcrypt.compare req.currentPassword u.password = false →
      changePassword db ident req salt now =
        (.err (.Unauthorized "Current password is incorrect"), db)) ∧
    (∀ u, ident.role = "employer" → findByPk db.employers ident.id = some u →
      bcrypt.compare req.currentPassword u.password = false →
      changePassword db ident req salt now =
        (.err (.Unauthorized "Current password is incorrect"), db)) ∧
    (∀ u, ident.role = "jobSeeker" → findByPk db.jobSeekers ident.id = some u →
      bcrypt.compare req.currentPassword u.password = false →
      changePassword db ident req salt now =
        (.err (.Unauthorized "Current password is incorrect"), db)) := by
  refine ⟨?_, ?_, ?_, ?_, ?_, ?_, ?_, ?_, ?_, ?_⟩
  · intro u hr hf hc
    simp [changePassword, changePasswordOn, changedRow, hr, hf, hc]
  · intro u hr hf hc
    simp [changePassword, changePasswordOn, changedRow, hr, hf, hc]
  · intro u hr hf hc
    simp [changePassword, changePasswordOn, changedRow, hr, hf, hc]
  · intro u
    exact ⟨rfl, rfl, rfl, rfl, rfl, rfl, rfl, rfl, rfl⟩
  · intro hr hf
    simp [changePassword, hr, hf]
  · intro hr hf
    simp [changePassword, hr, hf]
  · intro hr hf
    simp [changePassword, hr, hf]
  · intro u hr hf hc
    simp [changePassword, changePasswordOn, hr, hf, hc]
  · intro u hr hf hc
    simp [changePassword, changePasswordOn, hr, hf, hc]
  · intro u hr hf hc
    simp [changePassword, changePasswordOn, hr, hf, hc]

/-- C8 (witness): on the one-job-seeker store, the job seeker changing their
password with the correct current password rewrites exactly their row; with a
wrong current password the handler answers Unauthorized and writes nothing. -/
theorem C8_change_password_frame_witness :
    changePassword dbJS1 ⟨1, "jobSeeker"⟩ ⟨"pw", "pw2"⟩ 3 1000 =
      (.ok 200 "Password updated successfully",
       { dbJS1 with jobSeekers :=
           updateById dbJS1.jobSeekers 1 (changedRow activeJS ⟨"pw", "pw2"⟩ 3 1000) }) ∧
    changePassword dbJS1 ⟨1, "jobSeeker"⟩ ⟨"bad", "pw2"⟩ 3 1000 =
      (.err (.Unauthorized "Current password is incorrect"), dbJS1) :=
  ⟨(C8_change_password_frame dbJS1 ⟨1, "jobSeeker"⟩ ⟨"pw", "pw2"⟩ 3 1000).2.2.1
      activeJS rfl (by decide) (by decide),
   (C8_change_password_frame dbJS1 ⟨1, "jobSeeker"⟩ ⟨"bad", "pw2"⟩ 3 1000).2.2.2.2.2.2.2.2.2
      activeJS rfl (by decide) (by decide)⟩

/-- C9: `loginJobSeeker` signs the token with the role claim "jobseeker" (all
lowercase), and `unifiedLogin` matching the JobSeeker partition does the same
(it lowercases the resolved role "JobSeeker"); but the role dispatch of
`getCurrentUser` and `changePassword` recognizes only the exact tags "admin",
"employer" and "jobSeeker", so an identity whose role claim is "jobseeker"
always fails Unauthorized("Invalid role") — whereas `registerJobSeeker` signs
the recognized tag "jobSeeker". -/
theorem C9_jobseeker_case_mismatch (db : DB) (req : LoginReq) (n : Nat)
    (cp : ChangePwReq) (salt now : Nat) :
    (∀ d, loginJobSeeker db req = .ok 200 d → d.token.role = "jobseeker") ∧
    (∀ d, (findByEmail db.jobSeekers req.email).isSome = true →
        unifiedLogin db req = .ok 200 d → d.token.role = "jobseeker") ∧
    getCurrentUser db ⟨n, "jobseeker"⟩ = .err (.Unauthorized "Invalid role") ∧
    changePassword db ⟨n, "jobseeker"⟩ cp salt now =
      (.err (.Unauthorized "Invalid role"), db) ∧
    (∀ rr sa ni r db2, registerJobSeeker db rr sa ni = (.ok 201 r, db2) →
        r.token.role = "jobSeeker") := by
  refine ⟨?_, ?_, ?_, ?_, ?_⟩
  · intro d hd
    rcases hf : findByEmail db.jobSeekers req.email with _ | u <;>
      simp only [loginJobSeeker, hf] at hd
    · exact absurd hd (by simp)
    · split_ifs at hd
      injection hd with h1 h2
      rw [← h2]
      rfl
  · intro d hs hd
    obtain ⟨u, hu⟩ := Option.isSome_iff_exists.mp hs
    simp only [unifiedLogin, hu, toLower_JobSeeker] at hd
    split_ifs at hd
    injection hd with h1 h2
    rw [← h2]
    rfl
  · simp [getCurrentUser]
  · simp [changePassword]
  · intro rr sa ni r db2 hr
    by_cases hdup : ((findByEmail db.jobSeekers rr.email).isSome
        || (findByEmail db.employers rr.email).isSome
        || (findByEmail db.admins rr.email).isSome) = true
    · simp only [registerJobSeeker, if_pos hdup] at hr
      exact absurd (congrArg Prod.fst hr) (by simp)
    · simp only [registerJobSeeker, if_neg hdup] at hr
      have h1 := congrArg Prod.fst hr
      simp only [Prod.fst] at h1
      injection h1 with h2 h3
      rw [← h3]
      rfl

/-- C9 (witness): the token issued on the one-job-seeker store carries
"jobseeker", and the "jobseeker" tag is rejected by `getCurrentUser`. -/
theorem C9_jobseeker_case_mismatch_witness :
    (generateToken activeJS "jobseeker").role = "jobseeker" ∧
    getCurrentUser dbEmpty ⟨1, "jobseeker"⟩ = .err (.Unauthorized "Invalid role") :=
  ⟨(C9_jobseeker_case_mismatch dbJS1 ⟨"a@x.com", "pw"⟩ 1 ⟨"pw", "pw2"⟩ 0 0).1
      ⟨some "JobSeeker", activeJS.toJSON, generateToken activeJS "jobseeker"⟩
      (by decide),
   (C9_jobseeker_case_mismatch dbEmpty ⟨"a@x.com", "pw"⟩ 1 ⟨"pw", "pw2"⟩ 0 0).2.2.1⟩

/-- C10: in `requestPasswordReset` and `resetPassword`, every role value other
than the exact string "employer" — "admin", "jobSeeker", anything — selects
the JobSeeker partition (the handlers behave identically to role "jobSeeker"),
and neither handler ever reads or writes the Admin partition: the admins
component is unchanged and the response is independent of the admins
partition contents. -/
theorem C10_non_employer_role_selects_jobseeker (db : DB)
    (role email tok np : String) (bytes : List Nat) (now salt : Nat)
    (v s : Bool) (h : role ≠ "employer") :
    requestPasswordReset db ⟨email, role⟩ bytes now v s =
      requestPasswordReset db ⟨email, "jobSeeker"⟩ bytes now v s ∧
    resetPassword db ⟨tok, role, np⟩ salt now =
      resetPassword db ⟨tok, "jobSeeker", np⟩ salt now ∧
    (requestPasswordReset db ⟨email, role⟩ bytes now v s).2.admins = db.admins ∧
    (resetPassword db ⟨tok, role, np⟩ salt now).2.admins = db.admins ∧
    (∀ adm, (requestPasswordReset { db with admins := adm } ⟨email, role⟩ bytes now v s).1 =
        (requestPasswordReset db ⟨email, role⟩ bytes now v s).1) ∧
    (∀ adm, (resetPassword { db with admins := adm } ⟨tok, role, np⟩ salt now).1 =
        (resetPassword db ⟨tok, role, np⟩ salt now).1) := by
  have hr : (role == "employer") = false := by
    simp [h]
  refine ⟨?_, ?_, ?_, ?_, ?_, ?_⟩
  · simp only [requestPasswordReset, hr]
    rfl
  · simp only [resetPassword, hr]
    rfl
  · simp only [requestPasswordReset, hr, Bool.false_eq_true, if_false]
    rcases hf : findByEmail db.jobSeekers email with _ | u <;> simp [hf]
    cases s <;> simp
  · simp only [resetPassword, hr, Bool.false_eq_true, if_false]
    rcases hf : db.jobSeekers.find? (resetMatches tok now) with _ | u <;> simp [hf]
  · intro adm
    simp only [requestPasswordReset, hr, Bool.false_eq_true, if_false]
    rcases hf : findByEmail db.jobSeekers email with _ | u <;> simp [hf]
    cases s <;> simp
  · intro adm
    simp only [resetPassword, hr, Bool.false_eq_true, if_false]
    rcases hf : db.jobSeekers.find? (resetMatches tok now) with _ | u <;> simp [hf]

/-- C10 (witness): with role "admin" the reset-request handler behaves
exactly as with role "jobSeeker". -/
theorem C10_non_employer_role_selects_jobseeker_witness :
    requestPasswordReset dbJS1 ⟨"a@x.com", "admin"⟩ bytes32 0 true true =
      requestPasswordReset dbJS1 ⟨"a@x.com", "jobSeeker"⟩ bytes32 0 true true :=
  (C10_non_employer_role_selects_jobseeker dbJS1 "admin" "a@x.com" "t" "np"
      bytes32 0 0 true true (by decide)).1

end Auth
